import Mathlib

set_option maxRecDepth 8000

/-!
# Verification of the oauth-tester server-side protection core

A shallow embedding, in Lean 4, of the server-side request-validation
primitives of the `oauth-tester` repository: the SSRF-safe endpoint
validator (`validateTokenEndpoint` / `isBlockedIp`), the in-memory
rate limiter (`checkRateLimit`), the token-format dispatch of the
resource-validation handlers, the provider-error sanitizer
(`sanitizeErrorMessage`), and the response-handling logic of the
token-exchange and discovery handlers.

Modelling conventions:
* JavaScript strings become Lean `String`s; character indices are code
  points rather than UTF-16 code units, which is faithful for every
  string this development evaluates.
* A WHATWG-parsed URL is represented by its three fields consulted by
  the validator (`protocol`, `hostname`, `port`, all strings, the port
  kept as the string the URL parser yields); a URL that fails to parse
  is `Option.none`.
* DNS resolution (`lookup` with `all: true`) is an explicit oracle
  parameter `dns : String → Option (List String)`: `none` models a
  rejected lookup promise, `some addrs` the list of resolved A/AAAA
  addresses. Passing the oracle explicitly lets theorems state that a
  result is independent of resolution (no DNS influence).
* `fetch` outcomes are an explicit `FetchResult` value: a response
  (status / ok flag / parsed `content-length` / body length / parsed
  error fields), an abort fired by the timeout controller, or another
  network failure with its message.
-/

namespace OAuthTester

/-! ## String helpers

Structural-recursion counterparts of the JavaScript string operations
the source uses (`startsWith`, `toLowerCase`, `split`, `parseInt`,
`trim`, `slice`/`substring`). The Lean core `String` functions of the
same names are defined by well-founded recursion and therefore do not
evaluate inside `decide`/`rfl` proofs, so we work on `String.data`
(the underlying character list) instead; each helper's doc comment
names the JavaScript operation it embeds. -/

/-- JavaScript `s.startsWith(pre)`. -/
def strStartsWith (s pre : String) : Bool :=
  pre.data.isPrefixOf s.data

/-- JavaScript `s.toLowerCase()` (code-point-wise lowering, faithful
for the ASCII addresses and hostnames the validator sees). -/
def strToLower (s : String) : String :=
  String.mk (s.data.map Char.toLower)

/-- Split a character list at every occurrence of `sep` (the list of
fields, empty fields kept). -/
def splitCharAux (sep : Char) : List Char → List Char → List (List Char)
  | [], acc => [acc.reverse]
  | c :: rest, acc =>
    if c = sep then acc.reverse :: splitCharAux sep rest []
    else splitCharAux sep rest (c :: acc)

/-- JavaScript `s.split(sep)` for a one-character separator: the list
of (possibly empty) fields; `''.split(sep)` is `['']`. -/
def splitOnChar (sep : Char) (s : String) : List String :=
  (splitCharAux sep s.data []).map String.mk

/-- The numeric value of a string of decimal digits. -/
def decimalValue (s : String) : Nat :=
  s.data.foldl (fun acc c => acc * 10 + (c.toNat - 48)) 0

/-- JavaScript `s.trim()`: strip whitespace from both ends. -/
def strTrim (s : String) : String :=
  String.mk (((s.data.dropWhile Char.isWhitespace).reverse.dropWhile
    Char.isWhitespace).reverse)

/-- JavaScript `s.slice(n)` / the tail after the first `n` characters. -/
def strDrop (s : String) (n : Nat) : String :=
  String.mk (s.data.drop n)

/-- JavaScript `s.substring(0, n)` / the first `n` characters. -/
def strTake (s : String) (n : Nat) : String :=
  String.mk (s.data.take n)

/-! ## Endpoint Validator (server/utils, embedded from the source)

Source: the file defining `BLOCKED_IP_RANGES`, `isBlockedIp` and
`validateTokenEndpoint`.
-/

namespace EndpointValidator

/-- The verdict of `validateTokenEndpoint`:
`{ valid: true }` or `{ valid: false, reason }`. -/
inductive Verdict where
  | valid : Verdict
  | invalid (reason : String) : Verdict
deriving DecidableEq, Repr

/-- One entry of `BLOCKED_IP_RANGES`: a string prefix to match, a
human-readable description, and an optional refinement predicate
(`check`) applied to the normalized address. -/
structure BlockedRange where
  pfx : String
  description : String
  check : Option (String → Bool)

/-- JavaScript's `parseInt` applied to the second dotted component of an
address: parse the maximal leading run of decimal digits; no leading
digit means `NaN`, modelled as `none` (every `NaN` comparison in the
`check` predicate is false, so `none` makes the predicate false). -/
def parseIntPfx (s : String) : Option Nat :=
  let digits := s.data.takeWhile Char.isDigit
  if digits.isEmpty then none
  else some (decimalValue (String.mk digits))

/-- The refinement predicate of the `172.` range:
`second >= 16 && second <= 31` where
`second = parseInt(ip.split('.')[1] ?? '0')`. -/
def check172 (ip : String) : Bool :=
  let comps := splitOnChar '.' ip
  let secondStr := (comps.drop 1).headD "0"
  match parseIntPfx secondStr with
  | none => false
  | some n => decide (16 ≤ n) && decide (n ≤ 31)

/-- `BLOCKED_IP_RANGES`, in source order (first match wins). -/
def BLOCKED_IP_RANGES : List BlockedRange :=
  [ ⟨"127.", "loopback", none⟩,
    ⟨"10.", "private (10.x)", none⟩,
    ⟨"192.168.", "private (192.168.x)", none⟩,
    ⟨"172.", "private (172.16-31.x)", some check172⟩,
    ⟨"169.254.", "link-local / cloud metadata", none⟩,
    ⟨"::1", "IPv6 loopback", none⟩,
    ⟨"::ffff:127.", "IPv6-mapped loopback", none⟩,
    ⟨"fc", "IPv6 unique local", none⟩,
    ⟨"fd", "IPv6 unique local", none⟩,
    ⟨"fe80:", "IPv6 link-local", none⟩,
    ⟨"100.100.100.200", "Alibaba Cloud metadata", none⟩ ]

/-- Whether a blocked range matches the (already lowercased) address:
the prefix matches and, when a `check` refinement exists, it holds.
(The source loop `continue`s past a prefix match whose `check` fails.) -/
def rangeMatches (normalized : String) (r : BlockedRange) : Bool :=
  strStartsWith normalized r.pfx &&
    (match r.check with
     | some c => c normalized
     | none => true)

/-- `isBlockedIp(ip)`: lowercase the address, scan `BLOCKED_IP_RANGES`
top to bottom returning the first matching range's description, then
the `0.0.0.0` / `::` fallback; `none` when nothing matches. -/
def isBlockedIp (ip : String) : Option String :=
  let normalized := strToLower ip
  match BLOCKED_IP_RANGES.find? (rangeMatches normalized) with
  | some r => some r.description
  | none =>
    if ip = "0.0.0.0" ∨ ip = "::" then some "unspecified address"
    else none

/-- Node's `net.isIP` applied to a hostname produced by the WHATWG URL
parser. Such a hostname is recognised by `isIP` exactly when it is a
dotted-decimal IPv4 literal: a bare IPv6 literal can never come out of
the parser's `hostname` field (the parser keeps the square brackets,
and `isIP('[::1]')` is `0`). We therefore embed the IPv4 recogniser:
four dot-separated components, each a non-empty run of decimal digits
with no leading zero, each at most 255. -/
def isIP (host : String) : Bool :=
  let comps := splitOnChar '.' host
  comps.length == 4 &&
    comps.all (fun p =>
      !p.data.isEmpty && p.data.all Char.isDigit &&
      (p.data.length == 1 || p.data.headD ' ' != '0') &&
      decide (decimalValue p ≤ 255))

/-- The fields of a WHATWG-parsed URL consulted by the validator. -/
structure ParsedURL where
  protocol : String
  hostname : String
  port : String
deriving DecidableEq, Repr

/-- The port allow-list of the validator
(`['', '80', '443', '3000', '8080', '8443']`). -/
def allowedPorts : List String := ["", "80", "443", "3000", "8080", "8443"]

/-- The source's loop over the addresses returned by `lookup`: return
`Invalid` at the first blocked address, `Valid` when none is blocked. -/
def checkResolvedAddrs : List String → Verdict
  | [] => .valid
  | a :: rest =>
    match isBlockedIp a with
    | some blocked =>
      .invalid ("Hostname resolves to blocked " ++ blocked ++ " address")
    | none => checkResolvedAddrs rest

/-- `validateTokenEndpoint(url)` over the parsed URL (`none` = the
`new URL(url)` constructor threw) and the DNS oracle. Follows the
source branch for branch: malformed URL; the HTTPS requirement with
the localhost carve-out; the port allow-list; the localhost
short-circuit; the raw-IP direct check; and the resolve-and-check-all
step, `none` from the oracle standing for a rejected `lookup`. -/
def validateTokenEndpoint (u : Option ParsedURL)
    (dns : String → Option (List String)) : Verdict :=
  match u with
  | none => .invalid "Invalid URL format"
  | some p =>
    if p.protocol ≠ "https:" ∧ p.hostname ≠ "localhost" ∧ p.hostname ≠ "127.0.0.1" then
      .invalid "Token endpoint must use HTTPS"
    else if p.port ≠ "" ∧ ¬ allowedPorts.contains p.port then
      .invalid ("Port " ++ p.port ++ " is not allowed")
    else if p.hostname = "localhost" ∨ p.hostname = "127.0.0.1" then
      .valid
    else if isIP p.hostname then
      match isBlockedIp p.hostname with
      | some blocked => .invalid ("Blocked: " ++ blocked ++ " address")
      | none => .valid
    else
      match dns p.hostname with
      | none => .invalid "Could not resolve hostname"
      | some addrs => checkResolvedAddrs addrs

end EndpointValidator

/-! ## Rate Limiter (server/utils, embedded from the source)

The source keeps a module-level `Map<string, RateLimitEntry>` keyed by
client IP and reads the clock with `Date.now()`. The embedding passes
the store and the current time explicitly: `checkRateLimit` takes the
store and `now` (milliseconds) and returns the JS return value
(`null` = allowed, modelled `none`; `{ retryAfterSeconds }` modelled
`some retryAfterSeconds`) together with the store after the call's
mutations (`store.set`, and the `entry.count++` that mutates the entry
held in the map). -/

namespace RateLimiter

/-- `RateLimitEntry`: per-client request count and window-reset
timestamp (milliseconds). -/
structure RateLimitEntry where
  count : Nat
  resetAt : Nat
deriving DecidableEq, Repr

/-- `WINDOW_MS = 60_000` (1 minute). -/
def WINDOW_MS : Nat := 60000

/-- `MAX_REQUESTS = 30` (30 requests per minute per IP). -/
def MAX_REQUESTS : Nat := 30

/-- The rate-limit store: the `Map<string, RateLimitEntry>` as an
association list (at most one entry per key, first match read). -/
abbrev Store := List (String × RateLimitEntry)

/-- `store.get(ip)`. -/
def storeGet : Store → String → Option RateLimitEntry
  | [], _ => none
  | (k, v) :: rest, ip => if k = ip then some v else storeGet rest ip

/-- `store.set(ip, e)`: replace the entry for `ip`, or append it. -/
def storeSet : Store → String → RateLimitEntry → Store
  | [], ip, e => [(ip, e)]
  | (k, v) :: rest, ip, e =>
    if k = ip then (ip, e) :: rest else (k, v) :: storeSet rest ip e

/-- `checkRateLimit` on the store for client `ip` at time `now`:
* no entry, or `now > entry.resetAt` ⇒ store `{count: 1, resetAt: now
  + WINDOW_MS}` and allow (`none`);
* otherwise `entry.count++`; if the incremented count exceeds
  `MAX_REQUESTS`, return `Math.ceil((entry.resetAt - now) / 1000)` as
  `retryAfterSeconds` (`now ≤ resetAt` in this branch, so the natural
  ceiling `(resetAt - now + 999) / 1000` is the JS value); else allow.
  In both branches the incremented entry stays in the map. -/
def checkRateLimit (store : Store) (ip : String) (now : Nat) :
    Option Nat × Store :=
  match storeGet store ip with
  | none => (none, storeSet store ip ⟨1, now + WINDOW_MS⟩)
  | some entry =>
    if now > entry.resetAt then
      (none, storeSet store ip ⟨1, now + WINDOW_MS⟩)
    else if entry.count + 1 > MAX_REQUESTS then
      (some ((entry.resetAt - now + 999) / 1000),
       storeSet store ip ⟨entry.count + 1, entry.resetAt⟩)
    else
      (none, storeSet store ip ⟨entry.count + 1, entry.resetAt⟩)

/-- The store after a sequence of requests from one client at the given
times (each element one call of `checkRateLimit`). -/
def runRequests (store : Store) (ip : String) : List Nat → Store
  | [] => store
  | t :: ts => runRequests (checkRateLimit store ip t).2 ip ts

end RateLimiter

/-! ## Resource validation, POST handler (`server/api/resource.post.ts`)

The handler is embedded from its inputs (the `Authorization` header,
the body's `jwks.keys` array and `secret` string) up to the point
where it delegates to the external `jose` library (`jwtDecrypt` /
`jwtVerify`): the embedding returns either the thrown `createError`
(status code and message) or the verification call the handler makes.
The rate-limit guard at the top of the handler is the `RateLimiter`
component above and is studied separately; `issuer` / `audience` are
forwarded to `jose` unread and are omitted. -/

namespace ResourcePost

/-- `MAX_TOKEN_LENGTH = 16384`. -/
def MAX_TOKEN_LENGTH : Nat := 16384

/-- `MAX_SECRET_LENGTH = 512`. -/
def MAX_SECRET_LENGTH : Nat := 512

/-- A member of the body's `jwks.keys` array. The handler never
inspects a key (it hands the whole set to `jose`), so keys are opaque
values. -/
abbrev Jwk := String

/-- Where the handler ends up: a thrown `createError`, the JWE
decryption call `jwtDecrypt(token, secret, …)`, or the offline JWS
verification call `jwtVerify(token, localJWKS, …)`. -/
inductive Outcome where
  | httpError (statusCode : Nat) (statusMessage : String)
  | verifyJwe (token secret : String)
  | verifyJws (token : String) (keys : List Jwk)
deriving DecidableEq, Repr

/-- JavaScript truthiness of an optional string (`undefined` and `''`
are falsy). -/
def jsTruthy : Option String → Bool
  | none => false
  | some s => !s.data.isEmpty

/-- The 401 message of the non-JWT branch, with the observed segment
count interpolated (`got ${parts.length}`). -/
def notJwtMessage (n : Nat) : String :=
  "The access token is not a valid JWT. Expected 3 parts (JWS) or 5 parts (JWE), got "
    ++ toString n
    ++ ". This is likely an opaque token. For Auth0, set the \"audience\" parameter in the Configure step to receive a JWT access token."

/-- The 400 message of the JWE-without-secret branch. -/
def jweMissingSecretMsg : String :=
  "The access token is a JWE (encrypted JWT with 5 parts). A signing secret is required to decrypt it."

/-- The 400 message of the JWS-without-JWKS branch. -/
def missingJwksMsg : String :=
  "Missing JWKS keys. Fetch and cache the provider\x27s JWKS in the JWKS step first."

/-- The 401 message of the missing/malformed `Authorization` header. -/
def missingAuthMsg : String :=
  "Missing or invalid Authorization header. Expected: Bearer <token>"

/-- The POST handler after the rate-limit guard. `jwksKeys` is the
body's `jwks.keys` when it is an array (`none` when `jwks` or `keys`
is absent or not an array); `secret` is the body's `secret` when it is
a string. Follows the source in order: the `Bearer` header check, the
`slice(7).trim()` extraction, the empty-token and token-length 401s,
the secret-length 400, the dot-segment classification (3 ⇒ JWS, 5 ⇒
JWE, else 401 with the observed count), the JWE missing-secret 400,
and the JWS missing-JWKS 400. -/
def resourcePostHandler (authHeader : Option String)
    (jwksKeys : Option (List Jwk)) (secret : Option String) : Outcome :=
  match authHeader with
  | none => .httpError 401 missingAuthMsg
  | some h =>
    if ¬ strStartsWith h "Bearer " then .httpError 401 missingAuthMsg
    else
      let token := strTrim (strDrop h 7)
      if token = "" then .httpError 401 "Bearer token is empty"
      else if token.length > MAX_TOKEN_LENGTH then
        .httpError 401 "Token exceeds maximum length"
      else if jsTruthy secret &&
          decide ((secret.getD "").length > MAX_SECRET_LENGTH) then
        .httpError 400 "secret exceeds maximum length"
      else
        let parts := splitOnChar '.' token
        let isJWE := parts.length == 5
        let isJWS := parts.length == 3
        if !isJWS && !isJWE then
          .httpError 401 (notJwtMessage parts.length)
        else if isJWE then
          if !jsTruthy secret then .httpError 400 jweMissingSecretMsg
          else .verifyJwe token (secret.getD "")
        else
          match jwksKeys with
          | none => .httpError 400 missingJwksMsg
          | some [] => .httpError 400 missingJwksMsg
          | some keys => .verifyJws token keys

end ResourcePost

/-! ## Resource validation, GET handler (`server/api/resource.get.ts`,
first document)

Embedded from its inputs up to the `jwtVerify(token, remoteJWKS, …)`
call; the `jwks_uri` query parameter arrives as
`String(query.jwks_uri || '')`, so a missing parameter is the empty
string. The handler calls `validateTokenEndpoint` on the JWKS URI, so
the embedding takes the parsed URI and the DNS oracle. -/

namespace ResourceGet

/-- `MAX_URL_LENGTH = 2048`. -/
def MAX_URL_LENGTH : Nat := 2048

/-- `MAX_TOKEN_LENGTH = 8192`. -/
def MAX_TOKEN_LENGTH : Nat := 8192

/-- A thrown `createError`, or the remote-JWKS verification call. -/
inductive Outcome where
  | httpError (statusCode : Nat) (statusMessage : String)
  | verifyRemote (token jwksUri : String)
deriving DecidableEq, Repr

/-- The GET handler after the rate-limit guard. Note the GET handler
slices the token without trimming and has no empty-token check. -/
def resourceGetHandler (authHeader : Option String) (jwksUri : String)
    (parsedJwksUri : Option EndpointValidator.ParsedURL)
    (dns : String → Option (List String)) : Outcome :=
  match authHeader with
  | none => .httpError 401 ResourcePost.missingAuthMsg
  | some h =>
    if ¬ strStartsWith h "Bearer " then .httpError 401 ResourcePost.missingAuthMsg
    else
      let token := strDrop h 7
      if token.length > MAX_TOKEN_LENGTH then
        .httpError 401 "Token exceeds maximum length"
      else if jwksUri = "" then
        .httpError 400 "Missing required query parameter: jwks_uri"
      else if jwksUri.length > MAX_URL_LENGTH then
        .httpError 400 "jwks_uri exceeds maximum length"
      else
        match EndpointValidator.validateTokenEndpoint parsedJwksUri dns with
        | .invalid reason => .httpError 400 ("Blocked JWKS URI: " ++ reason)
        | .valid => .verifyRemote token jwksUri

end ResourceGet

/-! ## Token exchange handler (`server/api/resource.get.ts`, second
document: the `POST /token-exchange` handler)

The outbound `fetch` is modelled by an explicit `FetchResult`: either
a response (status, `ok` flag, the parsed `content-length` header, the
body length `text.length`, and the `error_description` / `error`
fields of the parsed body when they are strings), or the exception of
the `catch` branch — an `AbortError` fired by the timeout controller,
or another failure with its message. The embedding covers the
handler's response handling: size ceiling, provider-error extraction
and sanitization, and the `catch` classification. -/

namespace TokenExchange

/-- `MAX_URL_LENGTH = 2048`. -/
def MAX_URL_LENGTH : Nat := 2048

/-- `MAX_CODE_LENGTH = 4096`. -/
def MAX_CODE_LENGTH : Nat := 4096

/-- `MAX_SECRET_LENGTH = 512`. -/
def MAX_SECRET_LENGTH : Nat := 512

/-- `MAX_CLIENT_ID_LENGTH = 512`. -/
def MAX_CLIENT_ID_LENGTH : Nat := 512

/-- `MAX_REDIRECT_URI_LENGTH = 2048`. -/
def MAX_REDIRECT_URI_LENGTH : Nat := 2048

/-- `MAX_CODE_VERIFIER_LENGTH = 128`. -/
def MAX_CODE_VERIFIER_LENGTH : Nat := 128

/-- `MAX_RESPONSE_SIZE = 1024 * 1024` (1 MB), the ceiling of this
handler. -/
def MAX_RESPONSE_SIZE : Nat := 1024 * 1024

/-- `FETCH_TIMEOUT_MS = 10_000` (10 seconds). -/
def FETCH_TIMEOUT_MS : Nat := 10000

/-- The scanner behind `message.replace(/<[^>]*>/g, '')`. A match of
the regex starts at a `<` and extends through the first `>` that
follows it ( `[^>]*` cannot cross a `>`), and a `<` with no later `>`
starts no match and survives; the global replace removes every match,
scanning left to right. The scanner keeps a mode flag: `true` while
inside a match (skip up to and including the next `>`), `false`
outside (emit, entering a match at a `<` that has a later `>`). -/
def stripTagsGo : Bool → List Char → List Char
  | _, [] => []
  | true, c :: rest =>
    if c = '>' then stripTagsGo false rest else stripTagsGo true rest
  | false, c :: rest =>
    if c = '<' && rest.contains '>' then stripTagsGo true rest
    else c :: stripTagsGo false rest

/-- `sanitizeErrorMessage(message)`:
`message.replace(/<[^>]*>/g, '').substring(0, 500)`. -/
def sanitizeErrorMessage (message : String) : String :=
  strTake (String.mk (stripTagsGo false message.data)) 500

/-- The suffix after the first `>` of a list (what remains once the
scanner has consumed a match); the empty list when no `>` occurs. -/
def dropAfterGt : List Char → List Char
  | [] => []
  | c :: rest => if c = '>' then rest else dropAfterGt rest

/-- No markup survives: wherever a `<` occurs in the list, no `>`
follows it — so no substring of the shape `<`…`>` exists. -/
def noLiveTag (l : List Char) : Prop :=
  ∀ l₁ l₂, l = l₁ ++ '<' :: l₂ → '>' ∉ l₂

/-- JavaScript `a || b` on an optional string (absent and `''` are
falsy). -/
def jsOr (o : Option String) (d : String) : String :=
  match o with
  | some s => if s = "" then d else s
  | none => d

/-- The outbound form, in `URLSearchParams` insertion order:
`grant_type` (defaulted to `authorization_code` when the body's
`grantType` is falsy), `code`, `redirect_uri`, `client_id`, then
`client_secret` and `code_verifier` only when provided (truthy).
Absent body fields are the empty string. -/
def buildFormParams (grantType code redirectUri clientId clientSecret
    codeVerifier : String) : List (String × String) :=
  [("grant_type", if grantType = "" then "authorization_code" else grantType),
   ("code", code),
   ("redirect_uri", redirectUri),
   ("client_id", clientId)]
  ++ (if clientSecret = "" then [] else [("client_secret", clientSecret)])
  ++ (if codeVerifier = "" then [] else [("code_verifier", codeVerifier)])

/-- The per-entry masking of the debug echo: `client_secret` becomes
the fixed bullet mask, `code` is truncated to 20 characters with an
ellipsis, everything else is echoed verbatim. -/
def maskValue (k v : String) : String :=
  if k = "client_secret" then "••••••••"
  else if k = "code" then (if v.length > 20 then strTake v 20 ++ "..." else v)
  else v

/-- `debugRequest`: the outbound form with each value masked by
`maskValue`. -/
def buildDebugRequest (params : List (String × String)) :
    List (String × String) :=
  params.map (fun kv => (kv.1, maskValue kv.1 kv.2))

/-- A response of the outbound `fetch`, reduced to the fields the
handler consults. `contentLength` is the parsed `content-length`
header (`none` = header absent or not a number, on which the JS
`parseInt` comparison with `NaN` is false); `errorDescriptionField` /
`errorField` are `data.error_description` / `data.error` when the
parsed body carries them as strings. -/
structure HttpResponse where
  status : Nat
  ok : Bool
  contentLength : Option Nat
  bodyLength : Nat
  errorDescriptionField : Option String
  errorField : Option String
deriving DecidableEq, Repr

/-- The outcome of the `await fetch(...)`: a response, the
`AbortError` raised when the timeout controller fires (carrying the
runtime's exception message), or another network failure. -/
inductive FetchResult where
  | response (r : HttpResponse)
  | abortError (message : String)
  | failure (message : String)
deriving DecidableEq, Repr

/-- The handler's reply shapes after the fetch: the too-large reply,
the sanitized provider-error reply, the success reply (each carrying
the upstream status code), or the `catch` reply (`statusCode: 0`)
carrying the classified error message. -/
inductive ExchangeOutcome where
  | tooLarge (statusCode : Nat)
  | providerError (error : String) (statusCode : Nat)
  | exchanged (statusCode : Nat)
  | failed (error : String)
deriving DecidableEq, Repr

/-- The timeout-specific message of the `catch` branch:
`Token endpoint did not respond within ${FETCH_TIMEOUT_MS / 1000}
seconds`. -/
def timeoutMsg : String :=
  "Token endpoint did not respond within " ++ toString (FETCH_TIMEOUT_MS / 1000)
    ++ " seconds"

/-- The response handling of the token-exchange handler, from the
`fetch` result to the reply: the `content-length` pre-check and the
body-length check against `MAX_RESPONSE_SIZE`; the provider-error
reply on `!response.ok` with
`sanitizeErrorMessage(data.error_description || data.error || 'Token
exchange failed')`; the success reply; and the `catch` branch, which
answers the timeout-specific message exactly when the exception is
the `AbortError` (`e.name === 'AbortError'`) and
`sanitizeErrorMessage(e.message)` otherwise. -/
def handleExchangeResponse (res : FetchResult) : ExchangeOutcome :=
  match res with
  | .abortError _ => .failed timeoutMsg
  | .failure m => .failed (sanitizeErrorMessage m)
  | .response r =>
    let clTooLarge :=
      match r.contentLength with
      | some n => decide (n > MAX_RESPONSE_SIZE)
      | none => false
    if clTooLarge then .tooLarge r.status
    else if r.bodyLength > MAX_RESPONSE_SIZE then .tooLarge r.status
    else if !r.ok then
      .providerError
        (sanitizeErrorMessage
          (jsOr r.errorDescriptionField (jsOr r.errorField "Token exchange failed")))
        r.status
    else .exchanged r.status

end TokenExchange

/-! ## Discovery handler (`server/api/discover.post.ts` document)

The handler performs two outbound fetches (the discovery document,
then the JWKS), each inside a `try` whose `catch` wraps the
exception's message into a 502 `createError`. Unlike the
token-exchange handler, the `catch` has no `AbortError` test: a
timeout abort surfaces as the generic wrapped message. -/

namespace Discovery

/-- `MAX_URL_LENGTH = 2048`. -/
def MAX_URL_LENGTH : Nat := 2048

/-- `FETCH_TIMEOUT_MS = 10_000` (10 seconds). -/
def FETCH_TIMEOUT_MS : Nat := 10000

/-- `MAX_RESPONSE_SIZE = 512 * 1024` (512 KB), the ceiling of this
handler, applied to both the discovery document and the JWKS
response. -/
def MAX_RESPONSE_SIZE : Nat := 512 * 1024

/-- One fetch step of the discovery handler: either the body reaches
`JSON.parse` (size accepted), or a `createError` is thrown. -/
inductive FetchStep where
  | parsed (bodyLength : Nat)
  | httpError (statusCode : Nat) (statusMessage : String)
deriving DecidableEq, Repr

/-- The `catch` prefix of the first fetch. -/
def discoveryFailPfx : String := "Failed to fetch discovery document: "

/-- The oversize message of the first fetch. -/
def discoveryTooLargeMsg : String := "Discovery document too large"

/-- The `catch` prefix of the second (JWKS) fetch. -/
def jwksFailPfx : String := "Failed to fetch JWKS: "

/-- The oversize message of the second fetch. -/
def jwksTooLargeMsg : String := "JWKS response too large"

/-- One `try { fetch; ok-check; text; size-check } catch` block of the
discovery handler, parameterised by the block's catch prefix and
oversize message (`discoveryFailPfx`/`discoveryTooLargeMsg` for the
first fetch, `jwksFailPfx`/`jwksTooLargeMsg` for the second).
`statusText` is the response's status text, used by the `!response.ok`
branch. Every thrown error — including the abort raised by the
timeout controller, whose message passes through unchanged — becomes
a 502 with the prefixed message. -/
def handleDiscoveryFetch (pfxMsg tooLargeMsg : String)
    (res : TokenExchange.FetchResult) (statusText : String) : FetchStep :=
  match res with
  | .abortError m => .httpError 502 (pfxMsg ++ m)
  | .failure m => .httpError 502 (pfxMsg ++ m)
  | .response r =>
    if !r.ok then
      .httpError 502 (pfxMsg ++ "HTTP " ++ toString r.status ++ ": " ++ statusText)
    else if r.bodyLength > MAX_RESPONSE_SIZE then
      .httpError 502 (pfxMsg ++ tooLargeMsg)
    else .parsed r.bodyLength

end Discovery

/-! ## General lemmas -/

theorem strStartsWith_append (s t : String) :
    strStartsWith (s ++ t) s = true := by
  show s.data.isPrefixOf (s.data ++ t.data) = true
  rw [List.isPrefixOf_iff_prefix]
  exact List.prefix_append s.data t.data

theorem strDrop_append (s t : String) :
    strDrop (s ++ t) s.length = t := by
  show String.mk ((s.data ++ t.data).drop s.data.length) = t
  rw [List.drop_left]

theorem data_ne_nil_of_ne_empty (s : String) (h : s ≠ "") : s.data ≠ [] := by
  intro hd
  apply h
  cases s
  simp_all

/-! ## Endpoint Validator lemmas -/

namespace EndpointValidator

theorem checkResolvedAddrs_all_safe (addrs : List String)
    (h : ∀ a ∈ addrs, isBlockedIp a = none) :
    checkResolvedAddrs addrs = .valid := by
  induction addrs with
  | nil => rfl
  | cons a rest ih =>
    have ha := h a (List.mem_cons_self a rest)
    unfold checkResolvedAddrs
    rw [ha]
    exact ih fun b hb => h b (List.mem_cons_of_mem a hb)

theorem checkResolvedAddrs_any_blocked (addrs : List String)
    (h : ∃ a ∈ addrs, isBlockedIp a ≠ none) :
    ∃ a desc, a ∈ addrs ∧ isBlockedIp a = some desc ∧
      checkResolvedAddrs addrs =
        .invalid ("Hostname resolves to blocked " ++ desc ++ " address") := by
  induction addrs with
  | nil => simp at h
  | cons a rest ih =>
    cases hblk : isBlockedIp a with
    | some desc =>
      refine ⟨a, desc, List.mem_cons_self a rest, hblk, ?_⟩
      unfold checkResolvedAddrs
      rw [hblk]
    | none =>
      have hrest : ∃ b ∈ rest, isBlockedIp b ≠ none := by
        obtain ⟨b, hb, hbne⟩ := h
        rcases List.mem_cons.mp hb with rfl | hb'
        · exact absurd hblk hbne
        · exact ⟨b, hb', hbne⟩
      obtain ⟨b, desc, hb, hdesc, hres⟩ := ih hrest
      refine ⟨b, desc, List.mem_cons_of_mem a hb, hdesc, ?_⟩
      unfold checkResolvedAddrs
      rw [hblk]
      exact hres

/-- Reduce `validateTokenEndpoint` to the DNS step for a well-formed
`https` URL with an allowed port whose hostname is neither a localhost
name nor an IP literal. -/
theorem validateTokenEndpoint_dns_step (p : ParsedURL)
    (dns : String → Option (List String))
    (hscheme : p.protocol = "https:")
    (hport : allowedPorts.contains p.port = true)
    (h1 : p.hostname ≠ "localhost") (h2 : p.hostname ≠ "127.0.0.1")
    (hip : isIP p.hostname = false) :
    validateTokenEndpoint (some p) dns =
      match dns p.hostname with
      | none => .invalid "Could not resolve hostname"
      | some addrs => checkResolvedAddrs addrs := by
  show (if p.protocol ≠ "https:" ∧ p.hostname ≠ "localhost" ∧ p.hostname ≠ "127.0.0.1" then
      Verdict.invalid "Token endpoint must use HTTPS"
    else if p.port ≠ "" ∧ ¬ allowedPorts.contains p.port then
      Verdict.invalid ("Port " ++ p.port ++ " is not allowed")
    else if p.hostname = "localhost" ∨ p.hostname = "127.0.0.1" then
      Verdict.valid
    else if isIP p.hostname then
      match isBlockedIp p.hostname with
      | some blocked => Verdict.invalid ("Blocked: " ++ blocked ++ " address")
      | none => Verdict.valid
    else
      match dns p.hostname with
      | none => Verdict.invalid "Could not resolve hostname"
      | some addrs => checkResolvedAddrs addrs) = _
  rw [if_neg fun hc => hc.1 hscheme]
  rw [if_neg fun hc => hc.2 hport]
  rw [if_neg fun hc => hc.elim h1 h2]
  rw [hip]
  simp

end EndpointValidator

/-! ## Claims about the Endpoint Validator -/

section EndpointValidatorClaims

open EndpointValidator

/-- **C1.** For every URL whose hostname is not `localhost`/`127.0.0.1`
and not a literal IP address (having passed the scheme and port checks
that precede resolution — the source's "otherwise" step), the
validator resolves the hostname to all of its addresses: when
resolution fails the verdict is `Invalid` with the
unresolvable-hostname reason (the source string `Could not resolve
hostname`); when every resolved address is safe the verdict is
`Valid`; and when any single resolved address lies in a blocked range
— even when other resolved addresses are safe — the verdict is
`Invalid` carrying that range's description. -/
theorem hostname_resolution_checks_all_addresses (p : ParsedURL)
    (dns : String → Option (List String))
    (hscheme : p.protocol = "https:")
    (hport : allowedPorts.contains p.port = true)
    (h1 : p.hostname ≠ "localhost") (h2 : p.hostname ≠ "127.0.0.1")
    (hip : isIP p.hostname = false) :
    (dns p.hostname = none →
      validateTokenEndpoint (some p) dns = .invalid "Could not resolve hostname") ∧
    (∀ addrs, dns p.hostname = some addrs →
      ((∀ a ∈ addrs, isBlockedIp a = none) →
        validateTokenEndpoint (some p) dns = .valid) ∧
      ((∃ a ∈ addrs, isBlockedIp a ≠ none) →
        ∃ a desc, a ∈ addrs ∧ isBlockedIp a = some desc ∧
          validateTokenEndpoint (some p) dns =
            .invalid ("Hostname resolves to blocked " ++ desc ++ " address"))) := by
  have hred := validateTokenEndpoint_dns_step p dns hscheme hport h1 h2 hip
  constructor
  · intro hdns
    rw [hred, hdns]
  · intro addrs hdns
    rw [hred, hdns]
    exact ⟨checkResolvedAddrs_all_safe addrs, checkResolvedAddrs_any_blocked addrs⟩

/-- Witness for C1: `internal.example.com` with a failing resolver is
`Invalid("Could not resolve hostname")`, and with a resolver returning
one safe and one RFC1918 address it is `Invalid` with the private
range's description. -/
theorem hostname_resolution_checks_all_addresses_witness :
    validateTokenEndpoint (some ⟨"https:", "internal.example.com", ""⟩)
      (fun _ => none) = .invalid "Could not resolve hostname" ∧
    ∃ a desc, a ∈ ["93.184.216.34", "10.0.0.5"] ∧ isBlockedIp a = some desc ∧
      validateTokenEndpoint (some ⟨"https:", "internal.example.com", ""⟩)
        (fun _ => some ["93.184.216.34", "10.0.0.5"]) =
        .invalid ("Hostname resolves to blocked " ++ desc ++ " address") :=
  ⟨(hostname_resolution_checks_all_addresses ⟨"https:", "internal.example.com", ""⟩
      (fun _ => none) rfl (by decide) (by decide) (by decide) (by decide)).1 rfl,
   ((hostname_resolution_checks_all_addresses ⟨"https:", "internal.example.com", ""⟩
      (fun _ => some ["93.184.216.34", "10.0.0.5"]) rfl (by decide) (by decide)
      (by decide) (by decide)).2 ["93.184.216.34", "10.0.0.5"] rfl).2
    ⟨"10.0.0.5", by decide, by decide⟩⟩

/-- **C7.** Every URL with scheme `http` and a hostname other than
exactly `localhost` or `127.0.0.1` is `Invalid` with the HTTPS reason,
for every DNS oracle — the verdict is a constant in the oracle, so no
resolution influences (or is needed for) the answer. -/
theorem http_non_localhost_always_invalid (p : ParsedURL)
    (dns : String → Option (List String))
    (hscheme : p.protocol = "http:")
    (h1 : p.hostname ≠ "localhost") (h2 : p.hostname ≠ "127.0.0.1") :
    validateTokenEndpoint (some p) dns =
      .invalid "Token endpoint must use HTTPS" := by
  show (if p.protocol ≠ "https:" ∧ p.hostname ≠ "localhost" ∧ p.hostname ≠ "127.0.0.1" then
      Verdict.invalid "Token endpoint must use HTTPS"
    else if p.port ≠ "" ∧ ¬ allowedPorts.contains p.port then
      Verdict.invalid ("Port " ++ p.port ++ " is not allowed")
    else if p.hostname = "localhost" ∨ p.hostname = "127.0.0.1" then
      Verdict.valid
    else if isIP p.hostname then
      match isBlockedIp p.hostname with
      | some blocked => Verdict.invalid ("Blocked: " ++ blocked ++ " address")
      | none => Verdict.valid
    else
      match dns p.hostname with
      | none => Verdict.invalid "Could not resolve hostname"
      | some addrs => checkResolvedAddrs addrs) = _
  rw [if_pos ⟨by rw [hscheme]; decide, h1, h2⟩]

/-- Witness for C7: an `http` URL to an intranet name is rejected with
the HTTPS reason even under an oracle resolving it to a safe public
address. -/
theorem http_non_localhost_always_invalid_witness :
    validateTokenEndpoint (some ⟨"http:", "intranet.corp", ""⟩)
      (fun _ => some ["93.184.216.34"]) =
      .invalid "Token endpoint must use HTTPS" :=
  http_non_localhost_always_invalid ⟨"http:", "intranet.corp", ""⟩
    (fun _ => some ["93.184.216.34"]) rfl (by decide) (by decide)

/-- **C8.** The three spec scenarios of the validator:
`https://169.254.169.254/…` is `Invalid` with the link-local / cloud
metadata description; `https://example.com:PORT/token` is `Invalid`
with the disallowed-port reason for every port outside the allow-list
`{'', '80', '443', '3000', '8080', '8443'}`; and `https://localhost/…`
is `Valid` — the first and third hold for every DNS oracle, so neither
consults DNS. -/
theorem validator_spec_scenarios :
    (∀ dns, validateTokenEndpoint (some ⟨"https:", "169.254.169.254", ""⟩) dns =
      .invalid "Blocked: link-local / cloud metadata address") ∧
    (∀ (port : String) (dns), allowedPorts.contains port = false →
      validateTokenEndpoint (some ⟨"https:", "example.com", port⟩) dns =
        .invalid ("Port " ++ port ++ " is not allowed")) ∧
    (∀ dns, validateTokenEndpoint (some ⟨"https:", "localhost", ""⟩) dns = .valid) := by
  refine ⟨fun dns => rfl, ?_, fun dns => rfl⟩
  intro port dns h
  have hne : port ≠ "" := by
    intro rfleq
    rw [rfleq] at h
    simp [allowedPorts] at h
  show (if ("https:" : String) ≠ "https:" ∧ ("example.com" : String) ≠ "localhost" ∧
        ("example.com" : String) ≠ "127.0.0.1" then
      Verdict.invalid "Token endpoint must use HTTPS"
    else if port ≠ "" ∧ ¬ allowedPorts.contains port then
      Verdict.invalid ("Port " ++ port ++ " is not allowed")
    else if ("example.com" : String) = "localhost" ∨ ("example.com" : String) = "127.0.0.1" then
      Verdict.valid
    else if isIP "example.com" then
      match isBlockedIp "example.com" with
      | some blocked => Verdict.invalid ("Blocked: " ++ blocked ++ " address")
      | none => Verdict.valid
    else
      match dns "example.com" with
      | none => Verdict.invalid "Could not resolve hostname"
      | some addrs => checkResolvedAddrs addrs) = _
  rw [if_neg fun hc => hc.1 rfl]
  rw [if_pos ⟨hne, by rw [h]; decide⟩]

/-- Witness for C8: the disallowed-port scenario at port `9999`. -/
theorem validator_spec_scenarios_witness :
    validateTokenEndpoint (some ⟨"https:", "example.com", "9999"⟩)
      (fun _ => none) = .invalid "Port 9999 is not allowed" :=
  validator_spec_scenarios.2.1 "9999" (fun _ => none) (by decide)

end EndpointValidatorClaims

/-! ## Rate Limiter lemmas -/

namespace RateLimiter

theorem storeGet_storeSet (store : Store) (ip : String) (e : RateLimitEntry) :
    storeGet (storeSet store ip e) ip = some e := by
  induction store with
  | nil => simp [storeGet, storeSet]
  | cons kv rest ih =>
    obtain ⟨k, v⟩ := kv
    by_cases hk : k = ip
    · simp [storeGet, storeSet, hk]
    · simp [storeGet, storeSet, hk, ih]

/-- One in-window call (`now ≤ resetAt`) on a client with an entry
increments the count and leaves the reset timestamp untouched, whether
the call is allowed or limited. -/
theorem checkRateLimit_in_window (store : Store) (ip : String)
    (c r now : Nat) (hget : storeGet store ip = some ⟨c, r⟩)
    (hnow : now ≤ r) :
    (checkRateLimit store ip now).2 = storeSet store ip ⟨c + 1, r⟩ := by
  unfold checkRateLimit
  simp only [hget]
  rw [if_neg (by omega : ¬ now > r)]
  by_cases hmax : c + 1 > MAX_REQUESTS
  · rw [if_pos hmax]
  · rw [if_neg hmax]

/-- A sequence of in-window calls adds its length to the count and
never touches the reset timestamp. -/
theorem runRequests_in_window (ts : List Nat) (store : Store) (ip : String)
    (c r : Nat) (hget : storeGet store ip = some ⟨c, r⟩)
    (hts : ∀ t ∈ ts, t ≤ r) :
    storeGet (runRequests store ip ts) ip = some ⟨c + ts.length, r⟩ := by
  induction ts generalizing store c with
  | nil => simpa [runRequests] using hget
  | cons t ts ih =>
    have hstep := checkRateLimit_in_window store ip c r t hget
      (hts t (List.mem_cons_self t ts))
    have hrec := ih ((checkRateLimit store ip t).2) (c + 1)
      (by rw [hstep]; exact storeGet_storeSet store ip ⟨c + 1, r⟩)
      (fun s hs => hts s (List.mem_cons_of_mem t hs))
    unfold runRequests
    rw [hrec]
    simp only [List.length_cons]
    congr 2
    omega

end RateLimiter

/-! ## Claims about the Rate Limiter -/

section RateLimiterClaims

open RateLimiter

/-- **C2.** For one client inside one fixed 60-second window (every
request time at most the window's reset timestamp `t₀ + 60000` ms set
by the first request at `t₀`): after the first request and 28 further
in-window requests, the 30th request is Allowed, the 31st is Limited
carrying `Math.ceil` of the milliseconds remaining until the reset
timestamp divided by 1000 (the remaining whole seconds until reset,
`(t₀ + 60000 − t₃₁ + 999) / 1000` in ℕ), and a request arriving
strictly after the window's reset timestamp replaces the entry with
`count = 1` and a fresh reset timestamp and is Allowed. -/
theorem rate_limit_30th_allowed_31st_limited (ip : String) (store : Store)
    (t₀ : Nat) (ts : List Nat) (t30 t31 tafter : Nat)
    (h0 : storeGet store ip = none)
    (hts : ∀ t ∈ ts, t ≤ t₀ + WINDOW_MS) (hlen : ts.length = 28)
    (h30 : t30 ≤ t₀ + WINDOW_MS) (h31 : t31 ≤ t₀ + WINDOW_MS)
    (hafter : t₀ + WINDOW_MS < tafter) :
    let st29 := runRequests (checkRateLimit store ip t₀).2 ip ts
    let r30 := checkRateLimit st29 ip t30
    let r31 := checkRateLimit r30.2 ip t31
    let rafter := checkRateLimit r31.2 ip tafter
    r30.1 = none ∧
    r31.1 = some ((t₀ + WINDOW_MS - t31 + 999) / 1000) ∧
    rafter.1 = none ∧
    storeGet rafter.2 ip = some ⟨1, tafter + WINDOW_MS⟩ := by
  intro st29 r30 r31 rafter
  have h1 : storeGet (checkRateLimit store ip t₀).2 ip =
      some ⟨1, t₀ + WINDOW_MS⟩ := by
    unfold checkRateLimit
    simp only [h0]
    exact storeGet_storeSet store ip ⟨1, t₀ + WINDOW_MS⟩
  have h29 : storeGet st29 ip = some ⟨29, t₀ + WINDOW_MS⟩ := by
    have := runRequests_in_window ts _ ip 1 (t₀ + WINDOW_MS) h1 hts
    rw [hlen] at this
    exact this
  have hr30 : r30 = (none, storeSet st29 ip ⟨30, t₀ + WINDOW_MS⟩) := by
    show checkRateLimit st29 ip t30 = _
    unfold checkRateLimit
    simp only [h29]
    rw [if_neg (by omega : ¬ t30 > t₀ + WINDOW_MS)]
    rw [if_neg (by simp [MAX_REQUESTS] : ¬ 29 + 1 > MAX_REQUESTS)]
  have h30get : storeGet r30.2 ip = some ⟨30, t₀ + WINDOW_MS⟩ := by
    rw [hr30]
    exact storeGet_storeSet st29 ip ⟨30, t₀ + WINDOW_MS⟩
  have hr31 : r31 = (some ((t₀ + WINDOW_MS - t31 + 999) / 1000),
      storeSet r30.2 ip ⟨31, t₀ + WINDOW_MS⟩) := by
    show checkRateLimit r30.2 ip t31 = _
    unfold checkRateLimit
    simp only [h30get]
    rw [if_neg (by omega : ¬ t31 > t₀ + WINDOW_MS)]
    rw [if_pos (by simp [MAX_REQUESTS] : 30 + 1 > MAX_REQUESTS)]
  have h31get : storeGet r31.2 ip = some ⟨31, t₀ + WINDOW_MS⟩ := by
    rw [hr31]
    exact storeGet_storeSet r30.2 ip ⟨31, t₀ + WINDOW_MS⟩
  have hrafter : rafter = (none, storeSet r31.2 ip ⟨1, tafter + WINDOW_MS⟩) := by
    show checkRateLimit r31.2 ip tafter = _
    unfold checkRateLimit
    simp only [h31get]
    rw [if_pos (by omega : tafter > t₀ + WINDOW_MS)]
  refine ⟨by rw [hr30], by rw [hr31], by rw [hrafter], ?_⟩
  rw [hrafter]
  exact storeGet_storeSet r31.2 ip ⟨1, tafter + WINDOW_MS⟩

/-- Witness for C2: client `192.0.2.1`, window opened at `t₀ = 1000`,
28 further requests at `1000`, the 30th at `2000` Allowed, the 31st at
`3000` Limited with 58 remaining seconds, a request at `61001` (past
the reset timestamp `61000`) Allowed with the entry replaced by
`count = 1`. -/
theorem rate_limit_30th_allowed_31st_limited_witness :
    (checkRateLimit (runRequests (checkRateLimit [] "192.0.2.1" 1000).2
        "192.0.2.1" (List.replicate 28 1000)) "192.0.2.1" 2000).1 = none ∧
    (checkRateLimit (checkRateLimit (runRequests (checkRateLimit [] "192.0.2.1" 1000).2
        "192.0.2.1" (List.replicate 28 1000)) "192.0.2.1" 2000).2 "192.0.2.1" 3000).1 =
      some 58 ∧
    (checkRateLimit (checkRateLimit (checkRateLimit (runRequests
        (checkRateLimit [] "192.0.2.1" 1000).2 "192.0.2.1"
        (List.replicate 28 1000)) "192.0.2.1" 2000).2 "192.0.2.1" 3000).2
        "192.0.2.1" 61001).1 = none ∧
    storeGet (checkRateLimit (checkRateLimit (checkRateLimit (runRequests
        (checkRateLimit [] "192.0.2.1" 1000).2 "192.0.2.1"
        (List.replicate 28 1000)) "192.0.2.1" 2000).2 "192.0.2.1" 3000).2
        "192.0.2.1" 61001).2 "192.0.2.1" = some ⟨1, 121001⟩ :=
  rate_limit_30th_allowed_31st_limited "192.0.2.1" [] 1000
    (List.replicate 28 1000) 2000 3000 61001 rfl (by decide) (by decide)
    (by decide) (by decide) (by decide)

/-- **C10 (amended).** Once a client's entry is created at `t₀`, its
window-reset timestamp `t₀ + 60000` is never modified by subsequent
in-window requests — over-budget requests increment the count but
never extend the window — so after at least 29 further in-window
requests (hence an over-budget count), a next request at time `t` is
Allowed exactly when `t` lies strictly after `t₀ + 60000` ms: the
first Allowed instant is the first instant strictly after the first
request's arrival time plus 60 seconds, regardless of how many
requests arrived in between. -/
theorem window_reset_never_extended (ip : String) (store : Store)
    (t₀ : Nat) (ts : List Nat) (t : Nat)
    (h0 : storeGet store ip = none)
    (hts : ∀ s ∈ ts, s ≤ t₀ + WINDOW_MS) (hlen : 29 ≤ ts.length) :
    let st := runRequests (checkRateLimit store ip t₀).2 ip ts
    storeGet st ip = some ⟨1 + ts.length, t₀ + WINDOW_MS⟩ ∧
    ((checkRateLimit st ip t).1 = none ↔ t₀ + WINDOW_MS < t) := by
  intro st
  have h1 : storeGet (checkRateLimit store ip t₀).2 ip =
      some ⟨1, t₀ + WINDOW_MS⟩ := by
    unfold checkRateLimit
    simp only [h0]
    exact storeGet_storeSet store ip ⟨1, t₀ + WINDOW_MS⟩
  have hst : storeGet st ip = some ⟨1 + ts.length, t₀ + WINDOW_MS⟩ :=
    runRequests_in_window ts _ ip 1 (t₀ + WINDOW_MS) h1 hts
  refine ⟨hst, ?_⟩
  unfold checkRateLimit
  simp only [hst]
  by_cases ht : t > t₀ + WINDOW_MS
  · rw [if_pos ht]
    simpa using ht
  · rw [if_neg ht]
    rw [if_pos (by simp only [MAX_REQUESTS]; omega : 1 + ts.length + 1 > MAX_REQUESTS)]
    simp
    omega

/-- Witness for C10 (amended): 30 requests before `60000`; the entry
reads `{count: 30, resetAt: 60000}` and a request at `60001` is
Allowed. -/
theorem window_reset_never_extended_witness :
    storeGet (runRequests (checkRateLimit [] "198.51.100.9" 0).2
      "198.51.100.9" (List.replicate 29 5)) "198.51.100.9" = some ⟨30, 60000⟩ ∧
    (checkRateLimit (runRequests (checkRateLimit [] "198.51.100.9" 0).2
      "198.51.100.9" (List.replicate 29 5)) "198.51.100.9" 60001).1 = none :=
  ⟨(window_reset_never_extended "198.51.100.9" [] 0 (List.replicate 29 5)
      60001 rfl (by decide) (by decide)).1,
   (window_reset_never_extended "198.51.100.9" [] 0 (List.replicate 29 5)
      60001 rfl (by decide) (by decide)).2.mpr (by decide)⟩

/-- Counterexample to C10 as stated: the client is *not* Allowed at the
instant `t₀ + 60 s` itself. With the window opened at `t₀ = 0` and 29
further requests inside it, a request arriving exactly at
`0 + WINDOW_MS` (the reset timestamp, `t₀` plus 60 seconds) is still
Limited — the code requires `now > resetAt` strictly — and even
reports a retry-after of 0 seconds. -/
theorem window_reset_instant_counterexample :
    (checkRateLimit (runRequests (checkRateLimit [] "203.0.113.7" 0).2
      "203.0.113.7" (List.replicate 29 0)) "203.0.113.7" (0 + WINDOW_MS)).1 =
      some 0 := by decide

end RateLimiterClaims

/-! ## Resource handler lemmas -/

namespace ResourcePost

/-- Reduce the POST handler past its header, token-shape and
secret-length guards: for a well-formed bearer header whose token is
already trimmed, non-empty and within the length cap, and a secret
within its length cap, the handler reaches the format dispatch. -/
theorem resourcePostHandler_dispatch (token : String)
    (jwksKeys : Option (List Jwk)) (secret : Option String)
    (htrim : strTrim token = token) (hne : token ≠ "")
    (hlen : token.length ≤ MAX_TOKEN_LENGTH)
    (hsl : (secret.getD "").length ≤ MAX_SECRET_LENGTH) :
    resourcePostHandler (some ("Bearer " ++ token)) jwksKeys secret =
      (if !((splitOnChar '.' token).length == 3) &&
          !((splitOnChar '.' token).length == 5) then
         .httpError 401 (notJwtMessage (splitOnChar '.' token).length)
       else if (splitOnChar '.' token).length == 5 then
         if !jsTruthy secret then .httpError 400 jweMissingSecretMsg
         else .verifyJwe token (secret.getD "")
       else
         match jwksKeys with
         | none => .httpError 400 missingJwksMsg
         | some [] => .httpError 400 missingJwksMsg
         | some keys => .verifyJws token keys) := by
  have hdrop : strDrop ("Bearer " ++ token) 7 = token :=
    strDrop_append "Bearer " token
  have hseclen : (jsTruthy secret &&
      decide ((secret.getD "").length > MAX_SECRET_LENGTH)) = false := by
    rw [decide_eq_false (by omega : ¬ (secret.getD "").length > MAX_SECRET_LENGTH)]
    exact Bool.and_false _
  simp only [resourcePostHandler, strStartsWith_append, Bool.not_true,
    Bool.false_eq_true, not_true, if_false, hdrop, htrim]
  rw [if_neg hne]
  rw [if_neg (by omega : ¬ token.length > MAX_TOKEN_LENGTH)]
  rw [hseclen]
  rw [if_neg Bool.false_ne_true]

theorem jsTruthy_eq_false (secret : Option String)
    (h : secret = none ∨ secret = some "") : jsTruthy secret = false := by
  rcases h with rfl | rfl <;> rfl

end ResourcePost

/-! ## Claims about the resource-validation handlers -/

section ResourceClaims

open ResourcePost

/-- **C3.** The POST resource handler splits the bearer token on `.`
and dispatches on the segment count: exactly the 3-segment case
reaches JWS verification (`jwtVerify` against the supplied local
JWKS), exactly the 5-segment case reaches JWE decryption
(`jwtDecrypt` with the supplied secret), and any other segment count
`n` is rejected as not a valid JWT with a message that states the
observed count (the message literally contains `toString n`). Stated
for requests that pass the guards preceding the dispatch (trimmed
non-empty token within the length cap, secret and key set present and
within caps). -/
theorem token_classifier_routes_by_segment_count (token : String)
    (keys : List Jwk) (secret : String)
    (htrim : strTrim token = token) (hne : token ≠ "")
    (hlen : token.length ≤ MAX_TOKEN_LENGTH)
    (hsec : secret ≠ "") (hsl : secret.length ≤ MAX_SECRET_LENGTH)
    (hk : keys ≠ []) :
    (resourcePostHandler (some ("Bearer " ++ token)) (some keys) (some secret) =
        .verifyJws token keys ↔ (splitOnChar '.' token).length = 3) ∧
    (resourcePostHandler (some ("Bearer " ++ token)) (some keys) (some secret) =
        .verifyJwe token secret ↔ (splitOnChar '.' token).length = 5) ∧
    ((splitOnChar '.' token).length ≠ 3 → (splitOnChar '.' token).length ≠ 5 →
      resourcePostHandler (some ("Bearer " ++ token)) (some keys) (some secret) =
        .httpError 401 (notJwtMessage (splitOnChar '.' token).length) ∧
      ∃ pre suf, notJwtMessage (splitOnChar '.' token).length =
        pre ++ toString (splitOnChar '.' token).length ++ suf) := by
  have hred := resourcePostHandler_dispatch token (some keys) (some secret)
    htrim hne hlen hsl
  have htruthy : jsTruthy (some secret) = true := by
    have hd := data_ne_nil_of_ne_empty secret hsec
    simp only [jsTruthy]
    cases hcd : secret.data with
    | nil => exact absurd hcd hd
    | cons a l => rfl
  rw [hred]
  generalize (splitOnChar '.' token).length = n
  refine ⟨?_, ?_, ?_⟩
  · by_cases h3 : n = 3
    · subst h3
      cases keys with
      | nil => exact absurd rfl hk
      | cons k ks => simp
    · by_cases h5 : n = 5
      · subst h5
        simp [htruthy]
      · simp [h3, h5]
  · by_cases h3 : n = 3
    · subst h3
      cases keys with
      | nil => exact absurd rfl hk
      | cons k ks => simp
    · by_cases h5 : n = 5
      · subst h5
        simp [htruthy]
      · simp [h3, h5]
  · intro h3 h5
    refine ⟨by simp [h3, h5], ?_⟩
    exact ⟨"The access token is not a valid JWT. Expected 3 parts (JWS) or 5 parts (JWE), got ",
      ". This is likely an opaque token. For Auth0, set the \"audience\" parameter in the Configure step to receive a JWT access token.", rfl⟩

/-- Witness for C3: a one-segment token is rejected with the count `1`
stated in the message. -/
theorem token_classifier_routes_by_segment_count_witness :
    resourcePostHandler (some ("Bearer " ++ "not-a-jwt")) (some ["k"]) (some "s") =
      .httpError 401 (notJwtMessage 1) ∧
    ∃ pre suf, notJwtMessage 1 = pre ++ toString 1 ++ suf :=
  (token_classifier_routes_by_segment_count "not-a-jwt" ["k"] "s"
    (by decide) (by decide) (by decide) (by decide) (by decide) (by decide)).2.2
    (by decide) (by decide)

/-- **C4.** On the resource-validation path, missing key material is a
distinct 400-class failure, not a 401-class verification failure: a
5-segment (JWE) token submitted without a secret (absent or empty)
yields the 400 missing-secret error for every request reaching the
dispatch; a 3-segment (JWS) token submitted without a usable JWKS key
set (absent, not an array, or empty) yields the 400 missing-JWKS
error; the two messages are distinct from each other; and on the GET
handler — where the key material is the `jwks_uri` query parameter —
a missing `jwks_uri` yields its 400 missing-parameter error before
any verification. (All the handler's verification failures are thrown
with status 401; these are thrown with 400.) -/
theorem missing_key_material_distinct_400 :
    (∀ (token : String) (jwksKeys : Option (List Jwk)) (secret : Option String),
      strTrim token = token → token ≠ "" → token.length ≤ MAX_TOKEN_LENGTH →
      (secret = none ∨ secret = some "") →
      (splitOnChar '.' token).length = 5 →
      resourcePostHandler (some ("Bearer " ++ token)) jwksKeys secret =
        .httpError 400 jweMissingSecretMsg) ∧
    (∀ (token : String) (jwksKeys : Option (List Jwk)) (secret : Option String),
      strTrim token = token → token ≠ "" → token.length ≤ MAX_TOKEN_LENGTH →
      (secret.getD "").length ≤ MAX_SECRET_LENGTH →
      (jwksKeys = none ∨ jwksKeys = some []) →
      (splitOnChar '.' token).length = 3 →
      resourcePostHandler (some ("Bearer " ++ token)) jwksKeys secret =
        .httpError 400 missingJwksMsg) ∧
    jweMissingSecretMsg ≠ missingJwksMsg ∧
    (∀ (token : String) (parsed : Option EndpointValidator.ParsedURL)
      (dns : String → Option (List String)),
      token.length ≤ ResourceGet.MAX_TOKEN_LENGTH →
      ResourceGet.resourceGetHandler (some ("Bearer " ++ token)) "" parsed dns =
        .httpError 400 "Missing required query parameter: jwks_uri") := by
  refine ⟨?_, ?_, by decide, ?_⟩
  · intro token jwksKeys secret htrim hne hlen hsec h5
    have hsl : (secret.getD "").length ≤ MAX_SECRET_LENGTH := by
      rcases hsec with rfl | rfl <;> simp [MAX_SECRET_LENGTH]
    rw [resourcePostHandler_dispatch token jwksKeys secret htrim hne hlen hsl]
    rw [h5]
    simp [jsTruthy_eq_false secret hsec]
  · intro token jwksKeys secret htrim hne hlen hsl hkeys h3
    rw [resourcePostHandler_dispatch token jwksKeys secret htrim hne hlen hsl]
    rw [h3]
    rcases hkeys with rfl | rfl <;> simp
  · intro token parsed dns hlen
    have hdrop : strDrop ("Bearer " ++ token) 7 = token :=
      strDrop_append "Bearer " token
    simp only [ResourceGet.resourceGetHandler, strStartsWith_append, not_true,
      if_false, hdrop]
    rw [if_neg (by omega : ¬ token.length > ResourceGet.MAX_TOKEN_LENGTH)]
    simp

/-- Witness for C4: a 5-segment token with no secret, a 3-segment
token with no key set, and a GET request with no `jwks_uri`. -/
theorem missing_key_material_distinct_400_witness :
    resourcePostHandler (some ("Bearer " ++ "a.b.c.d.e")) none none =
      .httpError 400 jweMissingSecretMsg ∧
    resourcePostHandler (some ("Bearer " ++ "a.b.c")) none none =
      .httpError 400 missingJwksMsg ∧
    ResourceGet.resourceGetHandler (some ("Bearer " ++ "a.b.c")) "" none (fun _ => none) =
      .httpError 400 "Missing required query parameter: jwks_uri" :=
  ⟨missing_key_material_distinct_400.1 "a.b.c.d.e" none none (by decide)
      (by decide) (by decide) (Or.inl rfl) (by decide),
   missing_key_material_distinct_400.2.1 "a.b.c" none none (by decide)
      (by decide) (by decide) (by decide) (Or.inl rfl) (by decide),
   missing_key_material_distinct_400.2.2.2 "a.b.c" none (fun _ => none)
      (by decide)⟩

end ResourceClaims

/-! ## Sanitizer lemmas -/

namespace TokenExchange

/-- The scanner only ever emits characters of its input. -/
theorem mem_stripTagsGo (mode : Bool) (l : List Char) (a : Char)
    (h : a ∈ stripTagsGo mode l) : a ∈ l := by
  induction l generalizing mode with
  | nil => simp [stripTagsGo] at h
  | cons c rest ih =>
    cases mode with
    | true =>
      simp only [stripTagsGo] at h
      split at h
      · exact List.mem_cons_of_mem c (ih false h)
      · exact List.mem_cons_of_mem c (ih true h)
    | false =>
      simp only [stripTagsGo] at h
      split at h
      · exact List.mem_cons_of_mem c (ih true h)
      · rcases List.mem_cons.mp h with rfl | h'
        · exact List.mem_cons_self a rest
        · exact List.mem_cons_of_mem c (ih false h')

theorem noGt_stripTagsGo (mode : Bool) (l : List Char) (h : '>' ∉ l) :
    '>' ∉ stripTagsGo mode l :=
  fun hmem => h (mem_stripTagsGo mode l '>' hmem)

theorem dropAfterGt_length (l : List Char) :
    (dropAfterGt l).length ≤ l.length := by
  induction l with
  | nil => simp [dropAfterGt]
  | cons c rest ih =>
    simp only [dropAfterGt]
    split
    · simp
    · exact Nat.le_trans ih (by simp)

/-- In-match scanning is: discard through the first `>` and continue
out of a match. -/
theorem stripTagsGo_true_eq (l : List Char) :
    stripTagsGo true l = stripTagsGo false (dropAfterGt l) := by
  induction l with
  | nil => rfl
  | cons c rest ih =>
    by_cases hc : c = '>'
    · simp [stripTagsGo, dropAfterGt, hc]
    · simp [stripTagsGo, dropAfterGt, hc, ih]

theorem noLiveTag_nil : noLiveTag [] := by
  intro l₁ l₂ h
  cases l₁ <;> simp_all

theorem noLiveTag_cons_ne (c : Char) (l : List Char) (hc : c ≠ '<')
    (h : noLiveTag l) : noLiveTag (c :: l) := by
  intro l₁ l₂ heq
  cases l₁ with
  | nil =>
    simp only [List.nil_append, List.cons.injEq] at heq
    exact absurd heq.1 hc
  | cons a l₁ =>
    simp only [List.cons_append, List.cons.injEq] at heq
    exact h l₁ l₂ heq.2

theorem noLiveTag_cons_lt (l : List Char) (hg : '>' ∉ l)
    (h : noLiveTag l) : noLiveTag ('<' :: l) := by
  intro l₁ l₂ heq
  cases l₁ with
  | nil =>
    simp only [List.nil_append, List.cons.injEq] at heq
    exact heq.2 ▸ hg
  | cons a l₁ =>
    simp only [List.cons_append, List.cons.injEq] at heq
    exact h l₁ l₂ heq.2

theorem noLiveTag_take (l : List Char) (k : Nat) (h : noLiveTag l) :
    noLiveTag (l.take k) := by
  intro l₁ l₂ heq
  have hfull : l = l₁ ++ '<' :: (l₂ ++ l.drop k) := by
    conv_lhs => rw [← List.take_append_drop k l]
    rw [heq]
    simp
  intro hmem
  exact h l₁ (l₂ ++ l.drop k) hfull (List.mem_append_left _ hmem)

/-- The scanned output never has a `>` after a `<`. -/
theorem stripTagsGo_false_noLiveTag : ∀ (n : Nat) (l : List Char),
    l.length ≤ n → noLiveTag (stripTagsGo false l) := by
  intro n
  induction n with
  | zero =>
    intro l hl
    rw [List.eq_nil_of_length_eq_zero (Nat.le_zero.mp hl)]
    exact noLiveTag_nil
  | succ n ih =>
    intro l hl
    cases l with
    | nil => exact noLiveTag_nil
    | cons c rest =>
      have hrest : rest.length ≤ n := by
        simp only [List.length_cons] at hl
        omega
      by_cases hc : (decide (c = '<') && rest.contains '>') = true
      · rw [show stripTagsGo false (c :: rest) = stripTagsGo true rest from by
          simp only [stripTagsGo]; rw [if_pos hc]]
        rw [stripTagsGo_true_eq]
        exact ih (dropAfterGt rest)
          (Nat.le_trans (dropAfterGt_length rest) hrest)
      · rw [show stripTagsGo false (c :: rest) = c :: stripTagsGo false rest from by
          simp only [stripTagsGo]; rw [if_neg hc]]
        by_cases hlt : c = '<'
        · have hg : '>' ∉ rest := by
            intro hmem
            exact hc (by simp [hlt]; exact hmem)
          subst hlt
          exact noLiveTag_cons_lt _ (noGt_stripTagsGo false rest hg)
            (ih rest hrest)
        · exact noLiveTag_cons_ne c _ hlt (ih rest hrest)

end TokenExchange

/-! ## Claims about the sanitizer -/

section SanitizerClaims

open TokenExchange

/-- **C6.** The provider-error sanitizer strips HTML-like markup and
caps length: for every input, the output has length at most 500, and
no substring of the form `<`…`>` survives — wherever a `<` occurs in
the output, no `>` occurs anywhere after it. -/
theorem sanitize_error_message_strips_and_caps :
    (∀ s : String, (sanitizeErrorMessage s).length ≤ 500) ∧
    (∀ (s : String) (l₁ l₂ : List Char),
      (sanitizeErrorMessage s).data = l₁ ++ '<' :: l₂ → '>' ∉ l₂) := by
  constructor
  · intro s
    show ((stripTagsGo false s.data).take 500).length ≤ 500
    simp [List.length_take]
  · intro s l₁ l₂ heq
    exact noLiveTag_take (stripTagsGo false s.data) 500
      (stripTagsGo_false_noLiveTag s.data.length s.data (Nat.le_refl _)) l₁ l₂ heq

/-- Witness for C6: on `"a<b"` the sanitizer's output is within the
cap, and at the output's decomposition around its surviving `<` no
`>` follows. -/
theorem sanitize_error_message_witness :
    (sanitizeErrorMessage "a<b").length ≤ 500 ∧ '>' ∉ (['b'] : List Char) :=
  ⟨sanitize_error_message_strips_and_caps.1 "a<b",
   sanitize_error_message_strips_and_caps.2 "a<b" ['a'] ['b'] (by decide)⟩

end SanitizerClaims

/-! ## Claims about the token-exchange and discovery handlers -/

section HandlerClaims

open TokenExchange

/-- **C9.** The `debugRequest` echo masks the client secret: two
token-exchange requests identical except for a different non-empty
`clientSecret` produce the same `debugRequest`, and the value stored
under `client_secret` is the constant bullet mask — the echo carries
no information derived from the secret. -/
theorem debug_request_masks_client_secret
    (grantType code redirectUri clientId codeVerifier s₁ s₂ : String)
    (h₁ : s₁ ≠ "") (h₂ : s₂ ≠ "") :
    buildDebugRequest
        (buildFormParams grantType code redirectUri clientId s₁ codeVerifier) =
      buildDebugRequest
        (buildFormParams grantType code redirectUri clientId s₂ codeVerifier) ∧
    (buildDebugRequest
        (buildFormParams grantType code redirectUri clientId s₁ codeVerifier)).lookup
      "client_secret" = some "••••••••" := by
  constructor
  · simp [buildFormParams, buildDebugRequest, maskValue, h₁, h₂]
  · simp [buildFormParams, buildDebugRequest, maskValue, h₁, List.lookup]

/-- Witness for C9: two concrete requests differing only in the secret
yield the same masked echo. -/
theorem debug_request_masks_client_secret_witness :
    buildDebugRequest (buildFormParams "authorization_code" "abc" "https://app.example/cb"
        "client-1" "secret-one" "ver") =
      buildDebugRequest (buildFormParams "authorization_code" "abc" "https://app.example/cb"
        "client-1" "secret-two" "ver") ∧
    (buildDebugRequest (buildFormParams "authorization_code" "abc" "https://app.example/cb"
        "client-1" "secret-one" "ver")).lookup "client_secret" = some "••••••••" :=
  debug_request_masks_client_secret "authorization_code" "abc"
    "https://app.example/cb" "client-1" "ver" "secret-one" "secret-two"
    (by decide) (by decide)

/-- Counterexample to C5 as stated: the discovery handler's ceiling is
512 KB, not 1 MB — a discovery-document body of 614400 characters
(600 KB, well under 1 MB) is rejected as too large instead of being
accepted. -/
theorem discovery_response_ceiling_counterexample :
    Discovery.handleDiscoveryFetch Discovery.discoveryFailPfx
        Discovery.discoveryTooLargeMsg
        (.response ⟨200, true, none, 614400, none, none⟩) "OK" =
      .httpError 502 "Failed to fetch discovery document: Discovery document too large" ∧
    614400 ≤ 1024 * 1024 :=
  ⟨by decide, by norm_num⟩

/-- **C5 (amended).** Both handlers run their outbound calls under the
fixed 10-second timeout constant, but the ceilings and timeout errors
differ. Token exchange: the ceiling is 1 MB — the reply is the
too-large reply exactly when the `content-length` header or the body
length exceeds `MAX_RESPONSE_SIZE` — and a timeout abort yields the
timeout-specific message. Discovery: the ceiling on the discovery and
JWKS bodies is 512 KB — an `ok` response reaches `JSON.parse` exactly
when its body is within that ceiling, and is rejected as too large
above it — and a timeout abort surfaces as the generic 502
fetch-failure wrapper around the abort exception's message, with no
timeout-specific labelling. -/
theorem outbound_call_limits :
    (FETCH_TIMEOUT_MS = 10000 ∧ Discovery.FETCH_TIMEOUT_MS = 10000) ∧
    (∀ r : HttpResponse,
      handleExchangeResponse (.response r) = .tooLarge r.status ↔
        ((∃ n, r.contentLength = some n ∧ n > MAX_RESPONSE_SIZE) ∨
          r.bodyLength > MAX_RESPONSE_SIZE)) ∧
    MAX_RESPONSE_SIZE = 1024 * 1024 ∧
    (∀ m, handleExchangeResponse (.abortError m) = .failed timeoutMsg) ∧
    Discovery.MAX_RESPONSE_SIZE = 512 * 1024 ∧
    (∀ (pfxMsg tooLargeMsg : String) (r : HttpResponse) (statusText : String),
      r.ok = true →
      (r.bodyLength > Discovery.MAX_RESPONSE_SIZE →
        Discovery.handleDiscoveryFetch pfxMsg tooLargeMsg (.response r) statusText =
          .httpError 502 (pfxMsg ++ tooLargeMsg)) ∧
      (r.bodyLength ≤ Discovery.MAX_RESPONSE_SIZE →
        Discovery.handleDiscoveryFetch pfxMsg tooLargeMsg (.response r) statusText =
          .parsed r.bodyLength)) ∧
    (∀ (pfxMsg tooLargeMsg m statusText : String),
      Discovery.handleDiscoveryFetch pfxMsg tooLargeMsg (.abortError m) statusText =
        .httpError 502 (pfxMsg ++ m)) := by
  refine ⟨⟨rfl, rfl⟩, ?_, rfl, fun m => rfl, rfl, ?_, fun a b c d => rfl⟩
  · intro r
    simp only [handleExchangeResponse]
    cases hcl : r.contentLength with
    | none =>
      by_cases hb : r.bodyLength > MAX_RESPONSE_SIZE
      · simp [hb]
      · by_cases hok : r.ok <;> simp [hb, hok]
    | some n =>
      by_cases hn : n > MAX_RESPONSE_SIZE
      · simp [hn]
      · by_cases hb : r.bodyLength > MAX_RESPONSE_SIZE
        · simp [hn, hb]
        · by_cases hok : r.ok
          · simp [hn, hb, hok]
          · simp [hn, hb, hok]
  · intro pfxMsg tooLargeMsg r statusText hok
    constructor
    · intro hb
      simp [Discovery.handleDiscoveryFetch, hok, hb]
    · intro hb
      have hnb : ¬ r.bodyLength > Discovery.MAX_RESPONSE_SIZE := by omega
      simp [Discovery.handleDiscoveryFetch, hok, hnb]

/-- Witness for C5 (amended): a 2 MB exchange body is rejected; a 1000
character JWKS body passes the discovery size check; a discovery abort
becomes the plain 502 wrapper. -/
theorem outbound_call_limits_witness :
    handleExchangeResponse (.response ⟨200, true, none, 2097152, none, none⟩) =
      .tooLarge 200 ∧
    Discovery.handleDiscoveryFetch Discovery.jwksFailPfx Discovery.jwksTooLargeMsg
      (.response ⟨200, true, none, 1000, none, none⟩) "OK" = .parsed 1000 ∧
    Discovery.handleDiscoveryFetch Discovery.jwksFailPfx Discovery.jwksTooLargeMsg
      (.abortError "This operation was aborted") "OK" =
      .httpError 502 ("Failed to fetch JWKS: " ++ "This operation was aborted") :=
  ⟨(outbound_call_limits.2.1 ⟨200, true, none, 2097152, none, none⟩).mpr
      (Or.inr (by norm_num [MAX_RESPONSE_SIZE])),
   (outbound_call_limits.2.2.2.2.2.1 Discovery.jwksFailPfx Discovery.jwksTooLargeMsg
      ⟨200, true, none, 1000, none, none⟩ "OK" rfl).2
      (by norm_num [Discovery.MAX_RESPONSE_SIZE]),
   outbound_call_limits.2.2.2.2.2.2 Discovery.jwksFailPfx Discovery.jwksTooLargeMsg
      "This operation was aborted" "OK"⟩

end HandlerClaims

end OAuthTester
